import Mathlib

/-!
Verification development for the message-delivery microservice
(scheduler + batch sender core).

Shallow embedding of:
- `internal/model/message.go` (the `Message` entity),
- the scheduler service (`schedulerService.Start/Stop/IsRunning`),
- the sender service (`messageSender.SendMessages/SendMessage/
  IsMessageCached/ClearMessageCache` in `internal/service/message_sender.go`),
- the store layer (`internal/mpostgres/mpostgres.go`).

External effects (HTTP delivery calls, Redis calls, Postgres calls) are
modelled by explicit environment records that inject each call's outcome
(fault or success); the Redis key-value state and the Postgres row state
are threaded explicitly.
-/

namespace MessageService

/-- The `Message` entity of `internal/model/message.go`.  Timestamps are
modelled as natural numbers (`0` plays the role of Go's zero time). -/
structure Message where
  id : Nat
  content : String
  recipientPhone : String
  sent : Bool
  sentAt : Nat
  messageID : String
  createdAt : Nat
  updatedAt : Nat
deriving Repr, DecidableEq

/-! ## Scheduler (`schedulerService`, src/unnamed/part_002)

The scheduler's shared mutable state is `isRunning`, the ticker handle and
the stop channel, all guarded by `runningMutex`.  `tickers` counts the
`time.NewTicker` calls whose handle is still active (the claims speak of
"active timers").  `senderNil` / `stopChanNil` model the two nil guards of
`Start`; `NewSchedulerService` always constructs a non-nil stop channel. -/

structure SchedState where
  isRunning : Bool
  tickers : Nat
  senderNil : Bool
  stopChanNil : Bool
deriving Repr, DecidableEq

/-- State produced by `NewSchedulerService`: not running, no ticker yet,
sender and stop channel non-nil. -/
def newSchedulerService : SchedState :=
  { isRunning := false, tickers := 0, senderNil := false, stopChanNil := false }

structure StartResult where
  state : SchedState
  err : Option String
  workerLaunched : Bool
deriving Repr, DecidableEq

/-- `schedulerService.Start` (src/unnamed/part_002 lines 38-83): under the
mutex, if already running return the error `scheduler is already running`;
after the nil guards, create the ticker, set `isRunning`, and launch the
background goroutine (which runs the first batch immediately). -/
def schedStart (s : SchedState) : StartResult :=
  if s.isRunning then
    { state := s, err := some "scheduler is already running", workerLaunched := false }
  else if s.senderNil then
    { state := s, err := some "sender is nil", workerLaunched := false }
  else if s.stopChanNil then
    { state := s, err := some "stopChan is nil", workerLaunched := false }
  else
    { state := { s with isRunning := true, tickers := s.tickers + 1 },
      err := none, workerLaunched := true }

/-- Where the background goroutine of the scheduler currently is: parked on
its `select` over the ticker and the stop channel, or inside a call to
`SendMessages` (a cycle in flight). -/
inductive WorkerPhase where
  | atSelect
  | inCycle
deriving Repr, DecidableEq

/-- Capacity of the stop channel: `make(chan struct \x7b\x7d)` is unbuffered. -/
def stopChanCapacity : Nat := 0

/-- Go channel-send semantics: a send completes immediately iff there is
buffer room or a receiver is already parked at a receive for this channel.
The scheduler's goroutine receives on the stop channel only at its
`select`, so the only receiver is ready exactly in phase `atSelect`. -/
def sendCompletesImmediately (capacity queued : Nat) (receiverReady : Bool) : Bool :=
  receiverReady || decide (queued < capacity)

structure StopResult where
  state : SchedState
  err : Option String
  signalsSent : Nat
  waitsForCycle : Bool
deriving Repr, DecidableEq

/-- `schedulerService.Stop` (src/unnamed/part_002 lines 85-96): under the
mutex, if not running return nil; otherwise perform the (blocking) send
`s.stopChan <- struct \x7b\x7d \x7b\x7d` and set `isRunning := false`.
`waitsForCycle` records whether the channel send had to wait for the
goroutine to come back to its `select` (no queued value, zero capacity). -/
def schedStop (s : SchedState) (worker : WorkerPhase) : StopResult :=
  if !s.isRunning then
    { state := s, err := none, signalsSent := 0, waitsForCycle := false }
  else
    { state := { s with isRunning := false },
      err := none,
      signalsSent := 1,
      waitsForCycle :=
        !sendCompletesImmediately stopChanCapacity 0 (worker == WorkerPhase.atSelect) }

/-- `schedulerService.IsRunning` (src/unnamed/part_002 lines 98-102). -/
def schedIsRunning (s : SchedState) : Bool :=
  s.isRunning

/-! ## Delivery client (`messageSender.SendMessage`,
`internal/service/message_sender.go` lines 140-182) -/

/-- Outcome of one outbound HTTP attempt, as observed by `SendMessage`:
either `client.Do` fails at the transport level, or a response arrives with
a status code and a body that the `MessageResponse` decoder accepts or
rejects. -/
inductive HttpResult where
  | transportError
  | response (status : Nat) (bodyDecodes : Bool)
deriving Repr, DecidableEq

/-- Environment of one `SendMessage` call.  `newRequestFails` injects a
failure of `http.NewRequest`; `attempt n` is the outcome of the n-th
outbound attempt the code would make.  (`json.Marshal` of the two-string
`MessagePayload` cannot fail and is not modelled as fallible.) -/
structure HttpEnv where
  newRequestFails : Bool
  attempt : Nat → HttpResult

/-- The payload `\x7bto, content\x7d` built by `SendMessage`; field names
follow the Go struct `MessagePayload\x7bTo, Content\x7d`. -/
structure MessagePayload where
  To : String
  Content : String
deriving Repr, DecidableEq

/-- Classified result of `SendMessage`: nil error, the distinguished
rate-limited error, or a generic error. -/
inductive SendOutcome where
  | ok
  | rateLimited
  | failed
deriving Repr, DecidableEq

structure SendMessageExec where
  result : SendOutcome
  attempts : Nat
  payload : MessagePayload
deriving Repr, DecidableEq

/-- `messageSender.SendMessage` (lines 140-182): build the payload, create
the request, perform exactly one `client.Do`; then classify: 429 is the
rate-limited error, any status other than 200/202 is a generic error,
then decode the body, a decode failure being a generic error. -/
def sendMessage (env : HttpEnv) (m : Message) : SendMessageExec :=
  let payload : MessagePayload := { To := m.recipientPhone, Content := m.content }
  if env.newRequestFails then
    { result := SendOutcome.failed, attempts := 0, payload := payload }
  else
    match env.attempt 0 with
    | HttpResult.transportError =>
      { result := SendOutcome.failed, attempts := 1, payload := payload }
    | HttpResult.response status bodyDecodes =>
      if status == 429 then
        { result := SendOutcome.rateLimited, attempts := 1, payload := payload }
      else if !(status == 202) && !(status == 200) then
        { result := SendOutcome.failed, attempts := 1, payload := payload }
      else if bodyDecodes then
        { result := SendOutcome.ok, attempts := 1, payload := payload }
      else
        { result := SendOutcome.failed, attempts := 1, payload := payload }

/-! ## Redis cache model

The insredis client is modelled as an association list of
`(key, value, ttl-in-seconds)` entries; `Set` replaces any entry with the
same key.  Backend unavailability is injected per call by the environment
records of the operations below. -/

structure CacheEntry where
  key : String
  value : String
  ttl : Nat
deriving Repr, DecidableEq

abbrev Cache := List CacheEntry

/-- `redisClient.Set key value ttl` (successful call): replace-or-add. -/
def cacheSet (k v : String) (ttl : Nat) (c : Cache) : Cache :=
  if c.any (fun e => e.key == k) then
    c.map (fun e => if e.key == k then { key := k, value := v, ttl := ttl } else e)
  else
    c ++ [{ key := k, value := v, ttl := ttl }]

/-- `redisClient.Exists key` (successful call): the key count (0 or 1 for
an association list kept key-unique, but defined as the raw count). -/
def cacheExistsCount (k : String) (c : Cache) : Nat :=
  (c.filter (fun e => e.key == k)).length

/-- Whether a key is present in the cache. -/
def cacheHas (k : String) (c : Cache) : Bool :=
  c.any (fun e => e.key == k)

/-- `redisClient.Get key` as value-or-absent. -/
def cacheGet (k : String) (c : Cache) : Option String :=
  (c.find? (fun e => e.key == k)).map (fun e => e.value)

/-- The redis glob `message:*` used by `ClearMessageCache`: keys whose
UTF-8 text starts with `message:`. -/
def matchesMessageStar (k : String) : Bool :=
  List.isPrefixOf "message:".data k.data

/-- `redisClient.Keys "message:*"` (successful call). -/
def cacheKeysMatchingMessageStar (c : Cache) : List String :=
  (c.filter (fun e => matchesMessageStar e.key)).map (fun e => e.key)

/-- `redisClient.Del keys...` (successful call). -/
def cacheDelKeys (ks : List String) (c : Cache) : Cache :=
  c.filter (fun e => !(ks.contains e.key))

/-- The per-message dedup key `message:<id>` (`fmt.Sprintf "message:%d"`). -/
def msgKey (id : Nat) : String :=
  "message:" ++ toString id

/-! ## Store layer (`internal/mpostgres/mpostgres.go`) -/

/-- The row transformation of the `UPDATE messages SET sent, sent_at,
message_id, updated_at WHERE id = $5` statement of
`mpostgres.UpdateMessageSent` (lines 80-90), applied to one stored row. -/
def updateMessageSentRow (now : Nat) (mid : String) (id : Nat) (m : Message) : Message :=
  if m.id == id then
    { m with sent := true, sentAt := now, messageID := mid, updatedAt := now }
  else
    m

/-- `mpostgres.UpdateMessageSent` (lines 80-90): run the UPDATE through
`pool.Exec` and return its error, discarding the command tag (the
rows-affected count is never inspected).  `execFault` injects a database
error, in which case nothing is written. -/
def mpostgresUpdateMessageSent (execFault : Bool) (now : Nat) (id : Nat) (mid : String)
    (store : List Message) : List Message × Option String :=
  if execFault then
    (store, some "db error")
  else
    (store.map (updateMessageSentRow now mid id), none)

/-- `mpostgres.GetUnsentMessages` (lines 27-78) on a healthy database:
`SELECT ... WHERE sent = false LIMIT n` (no ORDER BY; the list order of
the store stands in for the store-defined row order). -/
def getUnsentMessages (limit : Nat) (store : List Message) : List Message :=
  (store.filter (fun m => m.sent == false)).take limit

/-- `mpostgres.GetSentMessages` (lines 92-142) on a healthy database:
`SELECT ... WHERE sent = true`. -/
def getSentMessages (store : List Message) : List Message :=
  store.filter (fun m => m.sent == true)

/-! ## `messageSender.IsMessageCached` and `messageSender.ClearMessageCache`
(`internal/service/message_sender.go` lines 184-230) -/

/-- Outcome of the `redisClient.Exists` call inside `IsMessageCached`, as
seen by the caller: `(isCached, error)`. -/
structure IsCachedResult where
  isCached : Bool
  err : Option String
deriving Repr, DecidableEq

/-- `messageSender.IsMessageCached` (lines 184-200): with a nil redis
client, return `(false, nil)`; on an `Exists` call error, return
`(false, err)`; otherwise `(count > 0, nil)`.  `redisNil` says whether
`s.redisClient == nil`; `existsFault` injects an `Exists` call failure. -/
def isMessageCached (redisNil existsFault : Bool) (id : Nat) (c : Cache) : IsCachedResult :=
  if redisNil then
    { isCached := false, err := none }
  else if existsFault then
    { isCached := false, err := some "redis error" }
  else
    { isCached := decide (cacheExistsCount (msgKey id) c > 0), err := none }

/-- Environment of one `ClearMessageCache` call. -/
structure ClearEnv where
  redisNil : Bool
  keysFault : Bool
  delFault : Bool
deriving Repr, DecidableEq

structure ClearResult where
  cache : Cache
  err : Option String
  delCalls : Nat
deriving Repr, DecidableEq

/-- `messageSender.ClearMessageCache` (lines 202-230): with a nil client
return nil; list the keys matching `message:*` (propagating a `Keys`
error); with no matching keys return nil without calling `Del`; otherwise
`Del` them all (propagating a `Del` error, which deletes nothing here). -/
def clearMessageCache (env : ClearEnv) (c : Cache) : ClearResult :=
  if env.redisNil then
    { cache := c, err := none, delCalls := 0 }
  else if env.keysFault then
    { cache := c, err := some "keys error", delCalls := 0 }
  else
    let keys := cacheKeysMatchingMessageStar c
    if keys.length == 0 then
      { cache := c, err := none, delCalls := 0 }
    else if env.delFault then
      { cache := c, err := some "del error", delCalls := 1 }
    else
      { cache := cacheDelKeys keys c, err := none, delCalls := 1 }

/-! ## Batch cycle (`messageSender.SendMessages`,
`internal/service/message_sender.go` lines 53-139) -/

/-- The persistent world the sender acts on: the Postgres rows and the
Redis key-value state. -/
structure World where
  store : List Message
  cache : Cache
deriving Repr, DecidableEq

/-- `SendMessage` as an action on the world: the single-message send path
performs only the outbound delivery attempt, so the world is returned as
received (lines 140-182 contain no store or cache call). -/
def sendMessageW (env : HttpEnv) (m : Message) (w : World) : SendMessageExec × World :=
  (sendMessage env m, w)

/-- Store update performed through the `MessageService` interface call
`UpdateMessageSent(ctx, message.ID)` in the cycle: set `sent`, `sentAt`
and `updatedAt` for the rows with that id. -/
def markSentStore (now : Nat) (id : Nat) (store : List Message) : List Message :=
  store.map (fun m =>
    if m.id == id then { m with sent := true, sentAt := now, updatedAt := now } else m)

/-- Environment of one `SendMessages` cycle.  Per-message outcomes are
indexed by the message's position in the fetched batch.  Faults stand for
errored calls; a faulted write leaves its target unchanged. -/
structure CycleEnv where
  fetchFault : Bool
  redisNil : Bool
  existsFault : Nat → Bool
  http : Nat → HttpEnv
  updateFault : Nat → Bool
  setFault : Nat → Bool
  getSentFault : Bool
  snapSetFault : Bool
  now : Nat
  nowStr : String

/-- Running state of the per-message loop, with the observable trace:
ids handed to the delivery client, ids for which `UpdateMessageSent` was
called / returned nil, and ids for which the per-message `Set` was
issued. -/
structure LoopState where
  world : World
  messagesSent : Bool
  delivered : List Nat
  updateCalls : List Nat
  updateOks : List Nat
  cacheSetCalls : List Nat
deriving Repr, DecidableEq

/-- One iteration of the `for _, message := range messages` loop of
`SendMessages` (lines 70-112), for the message at position `i`:
dedup-check (skip on cache error or cache hit), deliver, mark sent
(skip the rest on failure), then write the per-message cache entry
unless the redis client is nil or the `Set` call errors. -/
def processMessage (env : CycleEnv) (i : Nat) (m : Message) (st : LoopState) : LoopState :=
  let checked := isMessageCached env.redisNil (env.existsFault i) m.id st.world.cache
  if checked.err.isSome then
    st
  else if checked.isCached then
    st
  else
    let st := { st with delivered := st.delivered ++ [m.id] }
    let sent := sendMessageW (env.http i) m st.world
    let st := { st with world := sent.2 }
    if !(sent.1.result == SendOutcome.ok) then
      st
    else
      let st := { st with updateCalls := st.updateCalls ++ [m.id] }
      if env.updateFault i then
        st
      else
        let st :=
          { st with
            world := { st.world with store := markSentStore env.now m.id st.world.store },
            updateOks := st.updateOks ++ [m.id],
            messagesSent := true }
        if env.redisNil then
          st
        else
          let st := { st with cacheSetCalls := st.cacheSetCalls ++ [m.id] }
          if env.setFault i then
            st
          else
            { st with
              world :=
                { st.world with
                  cache := cacheSet (msgKey m.id) env.nowStr 86400 st.world.cache } }

/-- The whole per-message loop, `i` being the position of the head of
`msgs` in the fetched batch. -/
def sendLoop (env : CycleEnv) (msgs : List Message) (i : Nat) (st : LoopState) : LoopState :=
  match msgs with
  | [] => st
  | m :: rest => sendLoop env rest (i + 1) (processMessage env i m st)

/-- Serialization of the sent-messages slice for the aggregate snapshot
(`json.Marshal` of `[]model.Message` is total; the exact text is opaque to
the core, only the key it is stored under matters). -/
def marshalMessages (msgs : List Message) : String :=
  "[" ++ String.intercalate "," (msgs.map (fun m => toString m.id)) ++ "]"

/-- The `messages:sent` snapshot refresh after the loop (lines 114-136):
only when at least one message was sent and the redis client is non-nil;
`GetSentMessages` or `Set` failures are warnings that leave the cache
unchanged.  Returns the state and whether the snapshot was written. -/
def refreshSnapshot (env : CycleEnv) (st : LoopState) : LoopState × Bool :=
  if st.messagesSent && !env.redisNil then
    if env.getSentFault then
      (st, false)
    else if env.snapSetFault then
      (st, false)
    else
      ({ st with
          world :=
            { st.world with
              cache :=
                cacheSet "messages:sent"
                  (marshalMessages (getSentMessages st.world.store)) 600
                  st.world.cache } },
        true)
  else
    (st, false)

/-- Result of one `SendMessages(count)` call. -/
structure CycleResult where
  err : Option String
  world : World
  delivered : List Nat
  updateCalls : List Nat
  updateOks : List Nat
  cacheSetCalls : List Nat
  snapshotWritten : Bool
deriving Repr, DecidableEq

/-- Initial loop state over a world. -/
def initLoopState (w : World) : LoopState :=
  { world := w, messagesSent := false, delivered := [], updateCalls := [],
    updateOks := [], cacheSetCalls := [] }

/-- `messageSender.SendMessages` (lines 53-139): fetch the unsent batch
(propagating a fetch error and doing nothing else), return nil on an empty
batch, otherwise run the loop and the snapshot refresh and return nil. -/
def sendMessages (env : CycleEnv) (count : Nat) (w : World) : CycleResult :=
  if env.fetchFault then
    { err := some "failed to get unsent messages", world := w, delivered := [],
      updateCalls := [], updateOks := [], cacheSetCalls := [], snapshotWritten := false }
  else
    let msgs := getUnsentMessages count w.store
    if msgs.isEmpty then
      { err := none, world := w, delivered := [], updateCalls := [],
        updateOks := [], cacheSetCalls := [], snapshotWritten := false }
    else
      let st := sendLoop env msgs 0 (initLoopState w)
      let refreshed := refreshSnapshot env st
      { err := none, world := refreshed.1.world, delivered := refreshed.1.delivered,
        updateCalls := refreshed.1.updateCalls, updateOks := refreshed.1.updateOks,
        cacheSetCalls := refreshed.1.cacheSetCalls, snapshotWritten := refreshed.2 }

/-! ## Spec-side definitions and concrete inputs -/

/-- Delivery-outcome classification written from the specification's words
(sections 4.3 and 6.3), to be compared with the classification the code
performs: status 200 or 202 with a decodable JSON body is a success;
status 429 is the distinguished rate-limited error; any other status, a
transport failure, or a response-body decode failure is a generic
failure. -/
def deliveryOutcomeSpec : HttpResult → SendOutcome
  | HttpResult.transportError => SendOutcome.failed
  | HttpResult.response status bodyDecodes =>
    if status == 429 then
      SendOutcome.rateLimited
    else if (status == 200 || status == 202) && bodyDecodes then
      SendOutcome.ok
    else
      SendOutcome.failed

/-- A sample unsent message row. -/
def sampleMsg : Message :=
  { id := 1, content := "hello", recipientPhone := "+100", sent := false,
    sentAt := 0, messageID := "", createdAt := 0, updatedAt := 0 }

/-- A scheduler state that is currently running one timer. -/
def runningSched : SchedState :=
  { isRunning := true, tickers := 1, senderNil := false, stopChanNil := false }

/-- A delivery environment whose one response is HTTP 202 with a decodable
body. -/
def httpOk : HttpEnv :=
  { newRequestFails := false, attempt := fun _ => HttpResult.response 202 true }

/-- A cycle environment in which every external call succeeds. -/
def happyEnv : CycleEnv :=
  { fetchFault := false, redisNil := false,
    existsFault := fun _ => false,
    http := fun _ => httpOk,
    updateFault := fun _ => false, setFault := fun _ => false,
    getSentFault := false, snapSetFault := false,
    now := 5, nowStr := "2024-01-01T00:00:05Z" }

/-- A cycle environment in which every dedup-cache existence check errors
and everything else succeeds. -/
def existsFaultEnv : CycleEnv :=
  { happyEnv with existsFault := fun _ => true }

/-- A world holding one unsent message and an empty cache. -/
def oneMsgWorld : World :=
  { store := [sampleMsg], cache := [] }

/-- A world holding one unsent message whose dedup key is already cached,
next to the aggregate snapshot entry. -/
def cachedMsgWorld : World :=
  { store := [sampleMsg],
    cache := [{ key := "message:1", value := "2024-01-01T00:00:00Z", ttl := 86400 },
              { key := "messages:sent", value := "[]", ttl := 600 }] }

/-- A clear-cache environment with a live redis client and healthy calls. -/
def clearOkEnv : ClearEnv :=
  { redisNil := false, keysFault := false, delFault := false }

/-! ## Helper lemmas -/

/-- A message whose dedup existence check errors is skipped: the loop
iteration leaves the whole loop state (world included) unchanged. -/
theorem processMessage_eq_of_checkErr (env : CycleEnv) (i : Nat) (m : Message)
    (st : LoopState) (h1 : env.redisNil = false) (h2 : env.existsFault i = true) :
    processMessage env i m st = st := by
  simp [processMessage, isMessageCached, h1, h2]

/-! ## Claims -/

/-- Claim C1 (corrected), counterexample to the claim as stated: on a
scheduler whose `isRunning` flag is already true, `Start()` does not
return a nil error (it returns `scheduler is already running`). -/
theorem C1_counterexample :
    ¬ ((schedStart runningSched).err = none) := by decide

/-- Claim C1, amended: calling `Start()` on a scheduler that is already
running returns a non-nil error (`scheduler is already running`), creates
no second timer, leaves the state (hence `IsRunning() == true`) unchanged,
and launches no background worker. -/
theorem C1_start_on_running (s : SchedState) (h : s.isRunning = true) :
    (schedStart s).err = some "scheduler is already running" ∧
    (schedStart s).state = s ∧
    schedIsRunning (schedStart s).state = true ∧
    (schedStart s).workerLaunched = false := by
  simp [schedStart, schedIsRunning, h]

/-- Witness for C1 at the concrete running scheduler state. -/
theorem C1_witness :
    runningSched.isRunning = true ∧
    ((schedStart runningSched).err = some "scheduler is already running" ∧
     (schedStart runningSched).state = runningSched ∧
     schedIsRunning (schedStart runningSched).state = true ∧
     (schedStart runningSched).workerLaunched = false) :=
  ⟨rfl, C1_start_on_running runningSched rfl⟩

/-- Claim C9 (corrected), counterexample to the claim as stated: with a
cycle in flight (the worker not parked at its `select`), the unbuffered
send on the stop channel cannot complete, so `Stop()` does wait for the
in-flight cycle. -/
theorem C9_counterexample :
    ¬ ((schedStop runningSched WorkerPhase.inCycle).waitsForCycle = false) := by decide

/-- Claim C9, amended: `Stop()` on a running scheduler sends a single stop
signal, sets running=false and returns no error, but the send on the
unbuffered stop channel blocks exactly when a cycle is in flight: `Stop`
then waits for that cycle to finish before returning. -/
theorem C9_stop_blocks_on_inflight_cycle (s : SchedState) (w : WorkerPhase)
    (h : s.isRunning = true) :
    (schedStop s w).err = none ∧
    (schedStop s w).signalsSent = 1 ∧
    (schedStop s w).state.isRunning = false ∧
    (schedStop s w).waitsForCycle = (w == WorkerPhase.inCycle) := by
  cases w <;> simp [schedStop, sendCompletesImmediately, stopChanCapacity, h]

/-- Witness for C9 at the concrete running scheduler with a cycle in
flight. -/
theorem C9_witness :
    runningSched.isRunning = true ∧
    ((schedStop runningSched WorkerPhase.inCycle).err = none ∧
     (schedStop runningSched WorkerPhase.inCycle).signalsSent = 1 ∧
     (schedStop runningSched WorkerPhase.inCycle).state.isRunning = false ∧
     (schedStop runningSched WorkerPhase.inCycle).waitsForCycle =
       (WorkerPhase.inCycle == WorkerPhase.inCycle)) :=
  ⟨rfl, C9_stop_blocks_on_inflight_cycle runningSched WorkerPhase.inCycle rfl⟩

/-- Claim C6 (confirmed): whenever the request is created, `SendMessage`
performs exactly one outbound attempt and classifies its outcome exactly
as the specification states: 200/202 with decodable body is a nil error,
429 is the distinguished rate-limited error, everything else (other
status, transport failure, decode failure) is a generic error. -/
theorem C6_outcome_classified (env : HttpEnv) (m : Message)
    (h : env.newRequestFails = false) :
    (sendMessage env m).result = deliveryOutcomeSpec (env.attempt 0) ∧
    (sendMessage env m).attempts = 1 := by
  unfold sendMessage deliveryOutcomeSpec
  rw [h]
  cases henv : env.attempt 0 with
  | transportError => simp
  | response status bodyDecodes =>
    by_cases h429 : status == 429
    · simp [h429]
    · by_cases h200 : status == 200 <;> by_cases h202 : status == 202 <;>
        cases bodyDecodes <;> simp_all

/-- Witness for C6 at a concrete 429 response. -/
theorem C6_witness :
    ({ newRequestFails := false,
       attempt := fun _ => HttpResult.response 429 true } : HttpEnv).newRequestFails
        = false ∧
    ((sendMessage
        { newRequestFails := false, attempt := fun _ => HttpResult.response 429 true }
        sampleMsg).result =
      deliveryOutcomeSpec
        (({ newRequestFails := false,
            attempt := fun _ => HttpResult.response 429 true } : HttpEnv).attempt 0) ∧
     (sendMessage
        { newRequestFails := false, attempt := fun _ => HttpResult.response 429 true }
        sampleMsg).attempts = 1) :=
  ⟨rfl,
   C6_outcome_classified
     { newRequestFails := false, attempt := fun _ => HttpResult.response 429 true }
     sampleMsg rfl⟩

/-- Claim C10 (confirmed): the single-message send path only performs the
outbound delivery attempt with the payload built from the message; it
leaves the message store and the cache exactly as it found them. -/
theorem C10_sendMessage_frame (env : HttpEnv) (m : Message) (w : World) :
    (sendMessageW env m w).2.store = w.store ∧
    (sendMessageW env m w).2.cache = w.cache ∧
    (sendMessageW env m w).1.payload =
      { To := m.recipientPhone, Content := m.content } := by
  refine ⟨rfl, rfl, ?_⟩
  show (sendMessage env m).payload = _
  simp only [sendMessage]
  split_ifs with h
  · rfl
  · cases henv : env.attempt 0 with
    | transportError => rfl
    | response status bodyDecodes =>
      dsimp only
      split_ifs <;> rfl

/-- Claim C5 (confirmed): `SendMessages(count)` returns a non-nil error
exactly when the fetch of unsent messages fails; an empty fetch and all
per-message failure modes leave the returned error nil. -/
theorem C5_err_iff_fetch_fails (env : CycleEnv) (count : Nat) (w : World) :
    (sendMessages env count w).err =
      (if env.fetchFault then some "failed to get unsent messages" else none) := by
  by_cases h : env.fetchFault = true
  · rw [if_pos h]
    simp [sendMessages, h]
  · rw [if_neg h]
    simp only [sendMessages, if_neg h]
    split <;> rfl

/-- Claim C2 (corrected), counterexample to the claim as stated: with one
unsent message in the fetched batch and an erroring dedup-cache check, the
message is not passed to the Delivery Client (the claim states it still
would be). -/
theorem C2_counterexample :
    getUnsentMessages 10 oneMsgWorld.store = [sampleMsg] ∧
    (sendMessages existsFaultEnv 10 oneMsgWorld).delivered = [] := by decide

/-- Claim C2, amended: when the dedup-cache existence check for a message
errors, that message is skipped for the cycle — it is not passed to the
Delivery Client, no store update and no cache write happen for it, and
only a warning is logged before the loop continues with the next
message. -/
theorem C2_check_error_skips (env : CycleEnv) (i : Nat) (m : Message) (st : LoopState)
    (h1 : env.redisNil = false) (h2 : env.existsFault i = true) :
    processMessage env i m st = st :=
  processMessage_eq_of_checkErr env i m st h1 h2

/-- Witness for C2 at the concrete erroring-cache environment. -/
theorem C2_witness :
    (existsFaultEnv.redisNil = false ∧ existsFaultEnv.existsFault 0 = true) ∧
    processMessage existsFaultEnv 0 sampleMsg (initLoopState oneMsgWorld) =
      initLoopState oneMsgWorld :=
  ⟨⟨rfl, rfl⟩, C2_check_error_skips existsFaultEnv 0 sampleMsg (initLoopState oneMsgWorld) rfl rfl⟩

/-- Claim C7 (corrected), counterexample to the claim as stated: calling
the store's mark-sent with an id that identifies no message returns a nil
error while leaving the store unchanged (the command tag with its zero
rows-affected count is discarded). -/
theorem C7_counterexample :
    (∀ m ∈ [sampleMsg], m.id ≠ 2) ∧
    mpostgresUpdateMessageSent false 5 2 "m-2" [sampleMsg] = ([sampleMsg], none) := by
  decide

/-- Claim C7, amended: when the database call itself succeeds,
`UpdateMessageSent` always returns a nil error — in particular it silently
succeeds without persisting anything when no row has the given id — and
for every row that does have the id it sets `sent`, `sentAt`, `messageID`
and `updatedAt` together in the one UPDATE. -/
theorem C7_update_silent_on_missing_id (store : List Message) (i now : Nat) (mid : String) :
    (mpostgresUpdateMessageSent false now i mid store).2 = none ∧
    ((∀ m ∈ store, m.id ≠ i) → (mpostgresUpdateMessageSent false now i mid store).1 = store) ∧
    (∀ m ∈ store, m.id = i →
      ({ m with sent := true, sentAt := now, messageID := mid, updatedAt := now } : Message) ∈
        (mpostgresUpdateMessageSent false now i mid store).1) := by
  refine ⟨rfl, ?_, ?_⟩
  · intro h
    have hmap : store.map (updateMessageSentRow now mid i) = store.map id :=
      List.map_congr_left (fun a ha => by simp [updateMessageSentRow, h a ha])
    simp [mpostgresUpdateMessageSent, hmap]
  · intro m hm hmi
    have hrow : updateMessageSentRow now mid i m =
        { m with sent := true, sentAt := now, messageID := mid, updatedAt := now } := by
      simp [updateMessageSentRow, hmi]
    simp only [mpostgresUpdateMessageSent, Bool.false_eq_true, if_false]
    rw [← hrow]
    exact List.mem_map_of_mem _ hm

/-- Witness for C7 at the concrete one-row store. -/
theorem C7_witness :
    (mpostgresUpdateMessageSent false 5 1 "m-1" [sampleMsg]).2 = none ∧
    ({ sampleMsg with sent := true, sentAt := 5, messageID := "m-1", updatedAt := 5 }
        : Message) ∈ (mpostgresUpdateMessageSent false 5 1 "m-1" [sampleMsg]).1 :=
  ⟨(C7_update_silent_on_missing_id [sampleMsg] 1 5 "m-1").1,
   (C7_update_silent_on_missing_id [sampleMsg] 1 5 "m-1").2.2 sampleMsg
     (List.mem_singleton.mpr rfl) rfl⟩

/-- Looking up a key that does not match `message:*` is unaffected by
dropping all entries whose key does match. -/
theorem cacheGet_drop_matching (k : String) (hk : matchesMessageStar k = false) (c : Cache) :
    cacheGet k (c.filter (fun e => !matchesMessageStar e.key)) = cacheGet k c := by
  induction c with
  | nil => rfl
  | cons e l ih =>
    by_cases he : (e.key == k) = true
    · have hek : e.key = k := by simpa using he
      have hm : matchesMessageStar e.key = false := by rw [hek]; exact hk
      simp [cacheGet, List.filter_cons, hm, he]
    · by_cases hm : matchesMessageStar e.key
      · simpa [cacheGet, List.filter_cons, hm, he] using ih
      · simpa [cacheGet, List.filter_cons, hm, he] using ih

/-- Deleting exactly the keys listed by the `message:*` pattern is the
same as filtering out the entries whose key matches the pattern. -/
theorem cacheDelKeys_matching (c : Cache) :
    cacheDelKeys (cacheKeysMatchingMessageStar c) c =
      c.filter (fun e => !matchesMessageStar e.key) := by
  unfold cacheDelKeys
  apply List.filter_congr
  intro e he
  congr 1
  by_cases hm : matchesMessageStar e.key
  · have hmem : e.key ∈ cacheKeysMatchingMessageStar c :=
      List.mem_map_of_mem _ (List.mem_filter.mpr ⟨he, hm⟩)
    simp [hmem, hm]
  · have hmem : e.key ∉ cacheKeysMatchingMessageStar c := by
      intro hcontra
      rcases List.mem_map.mp hcontra with ⟨x, hx, hkey⟩
      rcases List.mem_filter.mp hx with ⟨_, hxm⟩
      rw [hkey] at hxm
      exact hm hxm
    simp [hmem, hm]

/-- Behaviour of `ClearMessageCache` when the redis client is live and
both redis calls succeed, as one equation. -/
theorem clearMessageCache_ok (env : ClearEnv) (c : Cache)
    (h1 : env.redisNil = false) (h2 : env.keysFault = false) (h3 : env.delFault = false) :
    clearMessageCache env c =
      if cacheKeysMatchingMessageStar c = [] then
        { cache := c, err := none, delCalls := 0 }
      else
        { cache := cacheDelKeys (cacheKeysMatchingMessageStar c) c,
          err := none, delCalls := 1 } := by
  unfold clearMessageCache
  rw [h1, h2, h3]
  by_cases hkeys : cacheKeysMatchingMessageStar c = []
  · simp [hkeys]
  · have hlen : ((cacheKeysMatchingMessageStar c).length == 0) = false := by
      simpa [List.length_eq_zero] using hkeys
    simp [hkeys, hlen]

/-- Every entry of a cache with no `message:*` key survives the
anti-pattern filter. -/
theorem filter_not_matching_of_no_keys (c : Cache)
    (hkeys : cacheKeysMatchingMessageStar c = []) :
    c.filter (fun e => !matchesMessageStar e.key) = c := by
  have hflt : List.filter (fun x => matchesMessageStar x.key) c = [] := by
    have hlen := congrArg (List.length) hkeys
    simp only [cacheKeysMatchingMessageStar, List.length_map] at hlen
    exact List.length_eq_zero.mp hlen
  refine List.filter_eq_self.mpr (fun e hec => ?_)
  simpa using List.filter_eq_nil_iff.mp hflt e hec

/-- Claim C8 (confirmed): with a live redis client and healthy `Keys` and
`Del` calls, the explicit cache-clear deletes exactly the entries whose
key matches `message:*`, returns nil, leaves the aggregate snapshot entry
`messages:sent` untouched, and when no per-message key exists it returns
nil without issuing any `Del`. -/
theorem C8_clear_frame (env : ClearEnv) (c : Cache)
    (h1 : env.redisNil = false) (h2 : env.keysFault = false) (h3 : env.delFault = false) :
    (clearMessageCache env c).err = none ∧
    (clearMessageCache env c).cache = c.filter (fun e => !matchesMessageStar e.key) ∧
    cacheGet "messages:sent" (clearMessageCache env c).cache =
      cacheGet "messages:sent" c ∧
    (cacheKeysMatchingMessageStar c = [] →
      (clearMessageCache env c).cache = c ∧ (clearMessageCache env c).delCalls = 0) := by
  have hsnap : matchesMessageStar "messages:sent" = false := by decide
  rw [clearMessageCache_ok env c h1 h2 h3]
  by_cases hkeys : cacheKeysMatchingMessageStar c = []
  · rw [if_pos hkeys]
    refine ⟨rfl, (filter_not_matching_of_no_keys c hkeys).symm, rfl, fun _ => ⟨rfl, rfl⟩⟩
  · rw [if_neg hkeys]
    exact ⟨rfl, cacheDelKeys_matching c,
      by rw [cacheDelKeys_matching c]; exact cacheGet_drop_matching _ hsnap c,
      fun hempty => absurd hempty hkeys⟩

/-- Witness for C8 at the concrete two-entry cache. -/
theorem C8_witness :
    (clearOkEnv.redisNil = false ∧ clearOkEnv.keysFault = false ∧
     clearOkEnv.delFault = false) ∧
    ((clearMessageCache clearOkEnv cachedMsgWorld.cache).err = none ∧
     (clearMessageCache clearOkEnv cachedMsgWorld.cache).cache =
       cachedMsgWorld.cache.filter (fun e => !matchesMessageStar e.key) ∧
     cacheGet "messages:sent" (clearMessageCache clearOkEnv cachedMsgWorld.cache).cache =
       cacheGet "messages:sent" cachedMsgWorld.cache ∧
     (cacheKeysMatchingMessageStar cachedMsgWorld.cache = [] →
       (clearMessageCache clearOkEnv cachedMsgWorld.cache).cache = cachedMsgWorld.cache ∧
       (clearMessageCache clearOkEnv cachedMsgWorld.cache).delCalls = 0)) :=
  ⟨⟨rfl, rfl, rfl⟩, C8_clear_frame clearOkEnv cachedMsgWorld.cache rfl rfl rfl⟩

/-- One loop iteration preserves the inclusion of attempted per-message
cache writes in the successful mark-sent calls: the `Set` for a message is
only reached after its `UpdateMessageSent` returned nil. -/
theorem processMessage_cacheSet_sub (env : CycleEnv) (i : Nat) (m : Message)
    (st : LoopState)
    (hsub : ∀ x ∈ st.cacheSetCalls, x ∈ st.updateOks) :
    ∀ x ∈ (processMessage env i m st).cacheSetCalls,
      x ∈ (processMessage env i m st).updateOks := by
  simp only [processMessage, sendMessageW]
  split_ifs with h1 h2 h3 h4 h5 h6 <;>
    first
      | exact hsub
      | (intro x hx
         rcases List.mem_append.mp hx with hx | hx
         · exact List.mem_append_left _ (hsub x hx)
         · exact List.mem_append_right _ hx)
      | exact fun x hx => List.mem_append_left _ (hsub x hx)

/-- The whole loop preserves the same inclusion. -/
theorem sendLoop_cacheSet_sub (env : CycleEnv) (msgs : List Message) (i : Nat)
    (st : LoopState)
    (hsub : ∀ x ∈ st.cacheSetCalls, x ∈ st.updateOks) :
    ∀ x ∈ (sendLoop env msgs i st).cacheSetCalls,
      x ∈ (sendLoop env msgs i st).updateOks := by
  induction msgs generalizing i st with
  | nil => exact hsub
  | cons m rest ih =>
    exact ih (i + 1) (processMessage env i m st)
      (processMessage_cacheSet_sub env i m st hsub)

/-- The snapshot refresh touches only the cache: every trace field and the
store are unchanged. -/
theorem refreshSnapshot_traces (env : CycleEnv) (st : LoopState) :
    (refreshSnapshot env st).1.delivered = st.delivered ∧
    (refreshSnapshot env st).1.updateCalls = st.updateCalls ∧
    (refreshSnapshot env st).1.updateOks = st.updateOks ∧
    (refreshSnapshot env st).1.cacheSetCalls = st.cacheSetCalls ∧
    (refreshSnapshot env st).1.world.store = st.world.store := by
  unfold refreshSnapshot
  split_ifs <;> simp

/-- Claim C3 (confirmed): in a cycle, the per-message cache entry for an
id is only ever written after the store's mark-sent call for that id
returned without error; a failed mark-sent reaches no cache write and the
loop continues. -/
theorem C3_cache_write_after_marked_sent (env : CycleEnv) (count : Nat) (w : World)
    (x : Nat) (h : x ∈ (sendMessages env count w).cacheSetCalls) :
    x ∈ (sendMessages env count w).updateOks := by
  revert h
  unfold sendMessages
  split_ifs with hf
  · intro h
    simp at h
  · dsimp only
    split
    · intro h
      simp at h
    · intro h
      have htr := refreshSnapshot_traces env
        (sendLoop env (getUnsentMessages count w.store) 0 (initLoopState w))
      simp only at h ⊢
      rw [htr.2.2.2.1] at h
      rw [htr.2.2.1]
      exact sendLoop_cacheSet_sub env (getUnsentMessages count w.store) 0
        (initLoopState w) (fun y hy => by simp [initLoopState] at hy) x h

/-- Witness for C3 at the all-healthy one-message cycle. -/
theorem C3_witness :
    1 ∈ (sendMessages happyEnv 10 oneMsgWorld).cacheSetCalls ∧
    1 ∈ (sendMessages happyEnv 10 oneMsgWorld).updateOks :=
  ⟨by decide, C3_cache_write_after_marked_sent happyEnv 10 oneMsgWorld 1 (by decide)⟩

/-- `cacheSet` never removes a key: any key present before a `Set` is
still present after it. -/
theorem cacheHas_cacheSet (k k' v : String) (ttl : Nat) (c : Cache)
    (h : cacheHas k c = true) : cacheHas k (cacheSet k' v ttl c) = true := by
  unfold cacheSet
  split_ifs with hany
  · unfold cacheHas at h ⊢
    rcases List.any_eq_true.mp h with ⟨e, he, hk⟩
    apply List.any_eq_true.mpr
    refine ⟨if e.key == k' then { key := k', value := v, ttl := ttl } else e,
      List.mem_map.mpr ⟨e, he, rfl⟩, ?_⟩
    by_cases hek : (e.key == k') = true
    · have h1 : e.key = k := by simpa using hk
      have h2 : e.key = k' := by simpa using hek
      simp [hek, ← h2, h1]
    · simpa [hek] using hk
  · unfold cacheHas at h ⊢
    rw [List.any_append]
    simp [h]

/-- A key present in the cache has a positive `Exists` count. -/
theorem cacheExistsCount_pos_of_has (k : String) (c : Cache)
    (h : cacheHas k c = true) : 0 < cacheExistsCount k c := by
  unfold cacheHas at h
  unfold cacheExistsCount
  rcases List.any_eq_true.mp h with ⟨e, he, hk⟩
  have hmem : e ∈ c.filter (fun e => e.key == k) := List.mem_filter.mpr ⟨he, hk⟩
  exact List.length_pos.mpr (fun hnil => by rw [hnil] at hmem; cases hmem)

/-- With a live redis client, a message whose dedup key is already in the
cache is skipped: the loop iteration leaves the loop state unchanged. -/
theorem processMessage_eq_of_cached (env : CycleEnv) (i : Nat) (m : Message)
    (st : LoopState) (h1 : env.redisNil = false)
    (h2 : cacheHas (msgKey m.id) st.world.cache = true) :
    processMessage env i m st = st := by
  by_cases hf : env.existsFault i = true
  · exact processMessage_eq_of_checkErr env i m st h1 hf
  · have hpos := cacheExistsCount_pos_of_has (msgKey m.id) st.world.cache h2
    simp [processMessage, isMessageCached, h1, hf, hpos]

/-- Mapping a function that fixes every element the filter keeps, and
preserves the filter predicate everywhere, commutes away under the
filter. -/
theorem filter_map_fixed (f : Message → Message) (p : Message → Bool) (l : List Message)
    (hid : ∀ m, p (f m) = p m) (hfix : ∀ m, p m = true → f m = m) :
    (l.map f).filter p = l.filter p := by
  induction l with
  | nil => rfl
  | cons a t ih =>
    rw [List.map_cons, List.filter_cons, List.filter_cons]
    by_cases hcase : p a = true
    · rw [if_pos (by rw [hid a]; exact hcase), if_pos hcase, hfix a hcase, ih]
    · rw [if_neg (by rw [hid a]; exact hcase), if_neg hcase, ih]

/-- Marking one id sent never touches the store records of another id. -/
theorem markSentStore_filter_other (now idm target : Nat) (h : target ≠ idm)
    (store : List Message) :
    (markSentStore now idm store).filter (fun m => m.id == target) =
      store.filter (fun m => m.id == target) := by
  unfold markSentStore
  apply filter_map_fixed
  · intro m
    by_cases hm : (m.id == idm) = true <;> simp [hm]
  · intro m hm
    have h1 : m.id = target := by simpa using hm
    have h2 : (m.id == idm) = false := by
      simp only [beq_eq_false_iff_ne, ne_eq, h1]
      exact fun hc => h hc
    simp [h2]

/-- The dedup invariant of one loop iteration: while the dedup key of a
target id stays in the cache (with a live redis client), the target is
never handed to the delivery client, never marked sent, and its store
records stay untouched. -/
theorem processMessage_dedup_inv (env : CycleEnv) (i : Nat) (m : Message)
    (st : LoopState) (target : Nat) (base : List Message)
    (h1 : env.redisNil = false)
    (hkey : cacheHas (msgKey target) st.world.cache = true)
    (hdel : target ∉ st.delivered)
    (hupd : target ∉ st.updateCalls)
    (hstore : st.world.store.filter (fun x => x.id == target) = base) :
    cacheHas (msgKey target) (processMessage env i m st).world.cache = true ∧
    target ∉ (processMessage env i m st).delivered ∧
    target ∉ (processMessage env i m st).updateCalls ∧
    (processMessage env i m st).world.store.filter (fun x => x.id == target) = base := by
  by_cases heq : m.id = target
  · rw [processMessage_eq_of_cached env i m st h1 (by rw [heq]; exact hkey)]
    exact ⟨hkey, hdel, hupd, hstore⟩
  · have hne : target ∉ [m.id] := by
      simp only [List.mem_singleton]
      exact fun hc => heq hc.symm
    have hmem : target ∉ st.delivered ++ [m.id] := by
      rw [List.mem_append]
      rintro (hc | hc)
      · exact hdel hc
      · exact hne hc
    have hmem2 : target ∉ st.updateCalls ++ [m.id] := by
      rw [List.mem_append]
      rintro (hc | hc)
      · exact hupd hc
      · exact hne hc
    have hmark : (markSentStore env.now m.id st.world.store).filter
        (fun x => x.id == target) = base := by
      rw [markSentStore_filter_other env.now m.id target
        (fun hc => heq hc.symm) st.world.store]
      exact hstore
    simp only [processMessage, sendMessageW]
    split_ifs with hc1 hc2 hc3 hc4 hc5 hc6
    · exact ⟨hkey, hdel, hupd, hstore⟩
    · exact ⟨hkey, hdel, hupd, hstore⟩
    · exact ⟨hkey, hmem, hupd, hstore⟩
    · exact ⟨hkey, hmem, hmem2, hstore⟩
    · exact ⟨hkey, hmem, hmem2, hmark⟩
    · exact ⟨hkey, hmem, hmem2, hmark⟩
    · exact ⟨cacheHas_cacheSet _ _ _ _ _ hkey, hmem, hmem2, hmark⟩

/-- The dedup invariant extended over the whole loop. -/
theorem sendLoop_dedup_inv (env : CycleEnv) (msgs : List Message) (i : Nat)
    (st : LoopState) (target : Nat) (base : List Message)
    (h1 : env.redisNil = false)
    (hkey : cacheHas (msgKey target) st.world.cache = true)
    (hdel : target ∉ st.delivered)
    (hupd : target ∉ st.updateCalls)
    (hstore : st.world.store.filter (fun x => x.id == target) = base) :
    cacheHas (msgKey target) (sendLoop env msgs i st).world.cache = true ∧
    target ∉ (sendLoop env msgs i st).delivered ∧
    target ∉ (sendLoop env msgs i st).updateCalls ∧
    (sendLoop env msgs i st).world.store.filter (fun x => x.id == target) = base := by
  induction msgs generalizing i st with
  | nil => exact ⟨hkey, hdel, hupd, hstore⟩
  | cons m rest ih =>
    obtain ⟨k, d, u, s⟩ :=
      processMessage_dedup_inv env i m st target base h1 hkey hdel hupd hstore
    exact ih (i + 1) (processMessage env i m st) k d u s

/-- Claim C4 (confirmed): with a live redis client, a message id whose
dedup entry `message:<id>` exists before the cycle is not passed to the
Delivery Client during that cycle, gets no store update call, and its
store records (in particular their `sent == false` flag) are exactly as
before the cycle. -/
theorem C4_cached_message_skipped (env : CycleEnv) (count : Nat) (w : World)
    (target : Nat)
    (h1 : env.redisNil = false)
    (h2 : cacheHas (msgKey target) w.cache = true) :
    target ∉ (sendMessages env count w).delivered ∧
    target ∉ (sendMessages env count w).updateCalls ∧
    (sendMessages env count w).world.store.filter (fun m => m.id == target) =
      w.store.filter (fun m => m.id == target) := by
  unfold sendMessages
  split_ifs with hf
  · simp
  · dsimp only
    split
    · simp
    · have hloop := sendLoop_dedup_inv env (getUnsentMessages count w.store) 0
        (initLoopState w) target (w.store.filter (fun m => m.id == target)) h1 h2
        (by simp [initLoopState]) (by simp [initLoopState]) rfl
      have htr := refreshSnapshot_traces env
        (sendLoop env (getUnsentMessages count w.store) 0 (initLoopState w))
      refine ⟨?_, ?_, ?_⟩
      · simp only
        rw [htr.1]
        exact hloop.2.1
      · simp only
        rw [htr.2.1]
        exact hloop.2.2.1
      · simp only
        rw [htr.2.2.2.2]
        exact hloop.2.2.2

/-- Witness for C4: the concrete world whose single unsent message is
already cache-marked. -/
theorem C4_witness :
    (happyEnv.redisNil = false ∧ cacheHas (msgKey 1) cachedMsgWorld.cache = true) ∧
    (1 ∉ (sendMessages happyEnv 10 cachedMsgWorld).delivered ∧
     1 ∉ (sendMessages happyEnv 10 cachedMsgWorld).updateCalls ∧
     (sendMessages happyEnv 10 cachedMsgWorld).world.store.filter (fun m => m.id == 1) =
       cachedMsgWorld.store.filter (fun m => m.id == 1)) :=
  ⟨⟨rfl, by decide⟩, C4_cached_message_skipped happyEnv 10 cachedMsgWorld 1 rfl (by decide)⟩

end MessageService
